import Mathlib

/-!
Shallow embedding of `internal/server/core.go` of the wg-portal repository.

The file models the pieces of `core.go` that the verified claims are about:
the per-session state helpers (`getSessionData`, `getFlashes`,
`updateSessionData`, `destroySessionData`, `SessionData.GetSortIcon`),
the startup sequence (`Server.Setup`) and the run phase (`Server.Run`)
with its two guarded background loops.

External effects are made explicit:
* the gin session layer is modelled as a `SessionState` holding the
  in-memory session values (`sessions.Default(c)`) and the backing store;
  the outcome of a `session.Save()` call is an explicit boolean oracle
  (`saveOk`), since the store write is the only thing that can fail there;
* the fallible startup collaborators (`wg.Init`, `NewUserManager`,
  `InitFromCurrentInterface`, `RestoreWireGuardInterface`, mail template
  parsing) are oracles in a `SetupEnv` record, and `Setup`/`Run` return
  the trace of steps they perform in order.
-/

namespace WgPortal

/-- Session data blob, `SessionData` in core.go.  The Go field
`FormData interface{}` is an untyped payload never inspected by the
functions verified here; it is modelled as an optional opaque string. -/
structure SessionData where
  LoggedIn      : Bool
  IsAdmin       : Bool
  UID           : String
  UserName      : String
  Firstname     : String
  Lastname      : String
  Email         : String
  SortedBy      : String
  SortDirection : String
  Search        : String
  AlertData     : String
  AlertType     : String
  FormData      : Option String
  deriving DecidableEq

/-- Flash alert message, `FlashData` in core.go (`Typ` is the Go field
named `Type`, renamed because `Type` is reserved in Lean). -/
structure FlashData where
  HasAlert : Bool
  Message  : String
  Typ      : String
  deriving DecidableEq

/-- The values held under one session: the `SessionIdentifier` entry and
the flash list the gin session keeps. -/
structure SessionValues where
  data    : Option SessionData
  flashes : List FlashData
  deriving DecidableEq

/-- One browser session as seen through `sessions.Default(c)`: the
in-memory session values of the current request plus the backing store
that `session.Save()` writes to. -/
structure SessionState where
  values : SessionValues
  store  : SessionValues
  deriving DecidableEq

/-- Session-layer operations a helper performs, used to state frame
conditions (which helpers write and which only read). -/
inductive SessionEvent
  | set
  | save
  | readFlashes
  deriving DecidableEq

/-- Error value produced by a failing `session.Save()`. -/
def saveErrorMsg : String := "failed to save session"

/-- Model of `session.Save()`: on success the in-memory values are
persisted to the backing store; on failure the store is untouched and an
error is returned. -/
def sessionSave (saveOk : Bool) (st : SessionState) :
    Option String × SessionState :=
  if saveOk then (none, { st with store := st.values })
  else (some (saveErrorMsg), st)

/-- The default record built by the `else` branch of `getSessionData`
(core.go lines 210-218); fields the Go composite literal leaves out are
the Go zero values. -/
def defaultSessionData : SessionData :=
  { LoggedIn      := false
    IsAdmin       := false
    UID           := ""
    UserName      := ""
    Firstname     := ""
    Lastname      := ""
    Email         := ""
    SortedBy      := "mail"
    SortDirection := "asc"
    Search        := ""
    AlertData     := ""
    AlertType     := ""
    FormData      := none }

/-- `Server.getSessionData` (core.go lines 202-226): return the stored
record if present; otherwise build the default record, `session.Set` it
and `session.Save` (a save error is only logged).  Also returns the
session-layer operations performed. -/
def getSessionData (saveOk : Bool) (st : SessionState) :
    SessionData × SessionState × List SessionEvent :=
  match st.values.data with
  | some d => (d, st, [])
  | none =>
      let d := defaultSessionData
      let st1 : SessionState := { st with values := { st.values with data := some d } }
      let st2 := (sessionSave saveOk st1).2
      (d, st2, [.set, .save])

/-- `Server.getFlashes` (core.go lines 228-241): `session.Flashes()`
reads and removes the flash list from the session values, then
`session.Save` persists the removal (a save error is only logged). -/
def getFlashes (saveOk : Bool) (st : SessionState) :
    List FlashData × SessionState × List SessionEvent :=
  let flashes := st.values.flashes
  let st1 : SessionState := { st with values := { st.values with flashes := [] } }
  let st2 := (sessionSave saveOk st1).2
  (flashes, st2, [.readFlashes, .save])

/-- `Server.updateSessionData` (core.go lines 243-251): `session.Set`
the new record, then `session.Save`; the save error is returned. -/
def updateSessionData (d : SessionData) (saveOk : Bool) (st : SessionState) :
    Option String × SessionState :=
  let st1 : SessionState := { st with values := { st.values with data := some d } }
  sessionSave saveOk st1

/-- `Server.destroySessionData` (core.go lines 253-261): `session.Delete`
the record, then `session.Save`; the save error is returned. -/
def destroySessionData (saveOk : Bool) (st : SessionState) :
    Option String × SessionState :=
  let st1 : SessionState := { st with values := { st.values with data := none } }
  sessionSave saveOk st1

/-- `SessionData.GetSortIcon` (core.go lines 284-293). -/
def SessionData.GetSortIcon (s : SessionData) (field : String) : String :=
  if s.SortedBy ≠ field then "fa-sort"
  else if s.SortDirection = "asc" then "fa-sort-alpha-down"
  else "fa-sort-alpha-up"

/-- Steps of the startup and run phases, in the order core.go performs
them; used to state which steps an execution performs and in what
order. -/
inductive Event
  | initConfig
  | initLdap
  | wgInit
  | newUserManager
  | initFromCurrentInterface
  | restoreWireGuard
  | parseMailTemplate
  | buildHttpServer
  | setupRoutes
  | startCacheRefresher
  | startAttrSync
  | serveHTTP
  deriving DecidableEq

/-- Outcomes of the fallible collaborators `Server.Setup` calls, one
oracle per call site.  `ldapError` is whether `ldapCacheUpdater.LastError`
is non-nil (which only disables LDAP features, core.go lines 98-102);
`wgInitErr` carries the error `s.wg.Init()` returns, since `Setup`
propagates that error value itself (line 107). -/
structure SetupEnv where
  ldapError        : Bool
  wgInitErr        : Option String
  userManagerNil   : Bool
  initInterfaceErr : Bool
  restoreErr       : Bool
  mailTplErr       : Bool

/-- `Server.Setup` (core.go lines 82-154): the error it returns and the
trace of steps performed.  Each failing step returns the wrapped error
string the Go code builds (including the "pare" typo of line 125) and
stops; later steps are never reached. -/
def Setup (env : SetupEnv) : Option String × List Event :=
  let ev := [Event.initConfig, Event.initLdap, Event.wgInit]
  match env.wgInitErr with
  | some e => (some e, ev)
  | none =>
    let ev := ev ++ [Event.newUserManager]
    if env.userManagerNil then (some ("unable to setup user manager"), ev) else
    let ev := ev ++ [Event.initFromCurrentInterface]
    if env.initInterfaceErr then (some ("unable to initialize user manager"), ev) else
    let ev := ev ++ [Event.restoreWireGuard]
    if env.restoreErr then (some ("unable to restore WireGuard state"), ev) else
    let ev := ev ++ [Event.parseMailTemplate]
    if env.mailTplErr then (some ("unable to pare mail template"), ev) else
    (none, ev ++ [Event.buildHttpServer, Event.setupRoutes])

/-- `Server.Run` (core.go lines 156-187): the cache-refresher goroutine
starts only when LDAP is enabled, the attribute-sync goroutine only when
LDAP is enabled and `SyncLdapStatus` is configured; then the web server
runs. -/
def Run (ldapDisabled syncLdapStatus : Bool) : List Event :=
  (if !ldapDisabled then [Event.startCacheRefresher] else []) ++
  (if !ldapDisabled && syncLdapStatus then [Event.startAttrSync] else []) ++
  [Event.serveHTTP]

/-- Whether an event is the start of a background task or of HTTP
serving, i.e. something that happens in `Run`. -/
def isServingStart : Event → Bool
  | .startCacheRefresher => true
  | .startAttrSync       => true
  | .serveHTTP           => true
  | _                    => false

/-- Whether an event is the start of one of the long-lived background
tasks. -/
def isBgStart : Event → Bool
  | .startCacheRefresher => true
  | .startAttrSync       => true
  | _                    => false

/-- Number of background-task starts in a trace. -/
def bgStartCount (t : List Event) : Nat := t.countP isBgStart

/-- Trace of a full boot: `Setup` followed by `Run` (with
`s.ldapDisabled` as set by `Setup` from the LDAP oracle). -/
def bootTrace (env : SetupEnv) (syncLdapStatus : Bool) : List Event :=
  (Setup env).2 ++ Run env.ldapError syncLdapStatus

/-- `5 * time.Minute` in nanoseconds (`CacheRefreshDuration`,
core.go line 25). -/
def CacheRefreshDuration : Nat := 5 * 60 * 1000000000

/-- Steps of one background-loop iteration. -/
inductive LoopEvent
  | sleep (d : Nat)
  | updateCache
  | syncAttrs
  | logWarning
  | logDebug
  deriving DecidableEq

/-- One iteration of the LDAP cache-refresh loop (core.go lines
160-166): sleep the fixed duration, call `Update(true, true)`, log a
warning if it failed, log a debug line, and loop. -/
def cacheRefresherIter (failed : Bool) : List LoopEvent :=
  [.sleep CacheRefreshDuration, .updateCache] ++
  (if failed then [.logWarning] else []) ++ [.logDebug]

/-- Trace of the first `n` iterations of the cache-refresh loop, the
update-failure outcomes given by the oracle `errs`.  The loop body has
no exit: the trace is defined for every `n`. -/
def cacheRefresherTrace (errs : Nat → Bool) : Nat → List LoopEvent
  | 0     => []
  | n + 1 => cacheRefresherTrace errs n ++ cacheRefresherIter (errs n)

/-- One iteration of the LDAP attribute-sync loop (core.go lines
172-178): sleep the fixed duration, call
`SyncLdapAttributesWithWireGuard()`, log a warning if it failed, log a
debug line, and loop. -/
def attrSyncIter (failed : Bool) : List LoopEvent :=
  [.sleep CacheRefreshDuration, .syncAttrs] ++
  (if failed then [.logWarning] else []) ++ [.logDebug]

/-- Trace of the first `n` iterations of the attribute-sync loop. -/
def attrSyncTrace (errs : Nat → Bool) : Nat → List LoopEvent
  | 0     => []
  | n + 1 => attrSyncTrace errs n ++ attrSyncIter (errs n)

/-- Whether every sleep in a loop event has exactly the fixed refresh
interval (no backoff, no escalation). -/
def sleepIsFixed : LoopEvent → Bool
  | .sleep d => d == CacheRefreshDuration
  | _        => true

/-- Number of `true` outcomes among the first `n` values of a boolean
oracle. -/
def countTrue (errs : Nat → Bool) : Nat → Nat
  | 0     => 0
  | n + 1 => countTrue errs n + (if errs n then 1 else 0)

/-! ## Sample values used by witnesses -/

/-- A session state with no stored record and no flashes. -/
def emptySessionState : SessionState :=
  { values := { data := none, flashes := [] }
    store  := { data := none, flashes := [] } }

/-- A session state whose session values hold one flash message. -/
def sampleFlashState : SessionState :=
  { values := { data := none
                flashes := [{ HasAlert := true, Message := "saved", Typ := "success" }] }
    store  := { data := none, flashes := [] } }

/-- A session record sorted descending, for exercising the non-asc
branch of `GetSortIcon`. -/
def descSession : SessionData :=
  { defaultSessionData with SortDirection := "desc" }

/-! ## Claim theorems: session layer -/

/-- Claim C2: for a session with no stored `SessionData`,
`getSessionData` returns the default record (sorted by the fixed field
"mail" ascending, logged out, not admin, empty identity fields),
persists it to the store when the save succeeds, and a second
consecutive call (with any save outcome) returns the identical value. -/
theorem getSessionData_default_stable (st : SessionState) (ok2 : Bool)
    (h : st.values.data = none) :
    (getSessionData true st).1 = defaultSessionData ∧
    (getSessionData true st).1.SortedBy = "mail" ∧
    (getSessionData true st).1.SortDirection = "asc" ∧
    (getSessionData true st).1.LoggedIn = false ∧
    (getSessionData true st).1.IsAdmin = false ∧
    (getSessionData true st).1.UID = "" ∧
    (getSessionData true st).1.UserName = "" ∧
    (getSessionData true st).1.Firstname = "" ∧
    (getSessionData true st).1.Lastname = "" ∧
    (getSessionData true st).1.Email = "" ∧
    ((getSessionData true st).2.1).store.data = some defaultSessionData ∧
    (getSessionData ok2 (getSessionData true st).2.1).1 = (getSessionData true st).1 := by
  simp [getSessionData, sessionSave, h, defaultSessionData]

/-- Witness for C2: the theorem applied to the empty session state. -/
theorem getSessionData_default_stable_witness :
    (getSessionData true emptySessionState).1 = defaultSessionData ∧
    (getSessionData true emptySessionState).1.SortedBy = "mail" ∧
    (getSessionData true emptySessionState).1.SortDirection = "asc" ∧
    (getSessionData true emptySessionState).1.LoggedIn = false ∧
    (getSessionData true emptySessionState).1.IsAdmin = false ∧
    (getSessionData true emptySessionState).1.UID = "" ∧
    (getSessionData true emptySessionState).1.UserName = "" ∧
    (getSessionData true emptySessionState).1.Firstname = "" ∧
    (getSessionData true emptySessionState).1.Lastname = "" ∧
    (getSessionData true emptySessionState).1.Email = "" ∧
    ((getSessionData true emptySessionState).2.1).store.data = some defaultSessionData ∧
    (getSessionData false (getSessionData true emptySessionState).2.1).1 =
      (getSessionData true emptySessionState).1 :=
  getSessionData_default_stable emptySessionState false rfl

/-- Claim C3: flashes are one-shot; after `getFlashes` returns a
non-empty list, an immediately following call on the resulting session
returns the empty list, whatever the save outcomes. -/
theorem getFlashes_one_shot (st : SessionState) (ok1 ok2 : Bool)
    (h : (getFlashes ok1 st).1 ≠ []) :
    (getFlashes ok2 (getFlashes ok1 st).2.1).1 = [] := by
  cases ok1 <;> simp [getFlashes, sessionSave]

/-- Witness for C3: a session holding one flash, read twice. -/
theorem getFlashes_one_shot_witness :
    (getFlashes false (getFlashes true sampleFlashState).2.1).1 = [] :=
  getFlashes_one_shot sampleFlashState true false (by decide)

/-- Claim C7: `updateSessionData` and `destroySessionData` each return
an error exactly when their own `session.Save` fails (and that error is
the store's save error), and nil on success; the outcomes of the two
operations are independent of each other. -/
theorem sessionWriteOps_error_iff_save_fails (st1 st2 : SessionState)
    (d : SessionData) (ok1 ok2 : Bool) :
    ((updateSessionData d ok1 st1).1 = none ↔ ok1 = true) ∧
    ((updateSessionData d ok1 st1).1 = if ok1 then none else some saveErrorMsg) ∧
    ((destroySessionData ok2 st2).1 = none ↔ ok2 = true) ∧
    ((destroySessionData ok2 st2).1 = if ok2 then none else some saveErrorMsg) := by
  cases ok1 <;> cases ok2 <;>
    simp [updateSessionData, destroySessionData, sessionSave]

/-- Claim C8: after a successful `updateSessionData` storing `d`, a
subsequent `getSessionData` on the same session returns exactly `d`,
taking the existing-record branch (no state change, no session-layer
writes). -/
theorem update_then_get_roundtrip (st : SessionState) (d : SessionData)
    (ok1 ok2 : Bool) (h : (updateSessionData d ok1 st).1 = none) :
    getSessionData ok2 (updateSessionData d ok1 st).2 =
      (d, (updateSessionData d ok1 st).2, []) := by
  cases ok1 <;> simp [updateSessionData, sessionSave, getSessionData]

/-- Witness for C8: update the empty session with the default record,
then read it back. -/
theorem update_then_get_roundtrip_witness :
    getSessionData false (updateSessionData defaultSessionData true emptySessionState).2 =
      (defaultSessionData,
       (updateSessionData defaultSessionData true emptySessionState).2, []) :=
  update_then_get_roundtrip emptySessionState defaultSessionData true false (by decide)

/-- Claim C9: on a session that already holds a stored record,
`getSessionData` returns that record, leaves the session state
unchanged and performs no session-layer operation (no Set, no Save). -/
theorem getSessionData_pure_on_existing (st : SessionState) (ok : Bool)
    (d : SessionData) (h : st.values.data = some d) :
    getSessionData ok st = (d, st, []) := by
  simp [getSessionData, h]

/-- Witness for C9: a session already holding the default record. -/
theorem getSessionData_pure_on_existing_witness :
    getSessionData false
      { values := { data := some defaultSessionData, flashes := [] }
        store  := { data := none, flashes := [] } } =
      (defaultSessionData,
       { values := { data := some defaultSessionData, flashes := [] }
         store  := { data := none, flashes := [] } }, []) :=
  getSessionData_pure_on_existing _ false defaultSessionData rfl

/-- Claim C10: `GetSortIcon` is total in the session's sort state: it
returns "fa-sort" when the field is not the sorted-by field, otherwise
"fa-sort-alpha-down" for ascending direction and "fa-sort-alpha-up" for
every other direction value. -/
theorem GetSortIcon_cases (s : SessionData) (f : String) :
    (s.SortedBy ≠ f → s.GetSortIcon f = "fa-sort") ∧
    (s.SortedBy = f → s.SortDirection = "asc" → s.GetSortIcon f = "fa-sort-alpha-down") ∧
    (s.SortedBy = f → s.SortDirection ≠ "asc" → s.GetSortIcon f = "fa-sort-alpha-up") := by
  refine ⟨fun h1 => ?_, fun h1 h2 => ?_, fun h1 h2 => ?_⟩
  · simp [SessionData.GetSortIcon, h1]
  · simp [SessionData.GetSortIcon, h1, h2]
  · simp [SessionData.GetSortIcon, h1, h2]

/-- Witness for C10: all three branches at concrete inputs. -/
theorem GetSortIcon_cases_witness :
    defaultSessionData.GetSortIcon ("name") = "fa-sort" ∧
    defaultSessionData.GetSortIcon ("mail") = "fa-sort-alpha-down" ∧
    descSession.GetSortIcon ("mail") = "fa-sort-alpha-up" :=
  ⟨(GetSortIcon_cases defaultSessionData ("name")).1 (by decide),
   (GetSortIcon_cases defaultSessionData ("mail")).2.1 (by decide) (by decide),
   (GetSortIcon_cases descSession ("mail")).2.2 (by decide) (by decide)⟩

/-! ## Predicates on events and helper lemmas for the loop traces -/

/-- Whether an event is the interface-restore step. -/
def isRestore : Event → Bool
  | .restoreWireGuard => true
  | _                 => false

/-- Whether a loop event is the cache update call. -/
def isUpdateCache : LoopEvent → Bool
  | .updateCache => true
  | _            => false

/-- Whether a loop event is the attribute-sync call. -/
def isSyncAttrs : LoopEvent → Bool
  | .syncAttrs => true
  | _          => false

/-- Whether a loop event is a logged warning. -/
def isLogWarning : LoopEvent → Bool
  | .logWarning => true
  | _           => false

/-- Helper: in the first `n` iterations of the cache-refresh loop the
update runs exactly `n` times whatever the failures, each failure is
logged exactly once, and every sleep is the fixed interval. -/
theorem cacheRefresherTrace_props (errs : Nat → Bool) (n : Nat) :
    (cacheRefresherTrace errs n).countP isUpdateCache = n ∧
    (cacheRefresherTrace errs n).countP isLogWarning = countTrue errs n ∧
    (cacheRefresherTrace errs n).all sleepIsFixed = true := by
  induction n with
  | zero => simp [cacheRefresherTrace, countTrue]
  | succ n ih =>
    obtain ⟨h1, h2, h3⟩ := ih
    cases herr : errs n <;>
      simp [cacheRefresherTrace, cacheRefresherIter, countTrue, herr, h1, h2, h3,
            List.countP_append, List.countP_cons, List.all_append,
            isUpdateCache, isLogWarning, sleepIsFixed]

/-- Helper: same properties for the attribute-sync loop. -/
theorem attrSyncTrace_props (errs : Nat → Bool) (n : Nat) :
    (attrSyncTrace errs n).countP isSyncAttrs = n ∧
    (attrSyncTrace errs n).countP isLogWarning = countTrue errs n ∧
    (attrSyncTrace errs n).all sleepIsFixed = true := by
  induction n with
  | zero => simp [attrSyncTrace, countTrue]
  | succ n ih =>
    obtain ⟨h1, h2, h3⟩ := ih
    cases herr : errs n <;>
      simp [attrSyncTrace, attrSyncIter, countTrue, herr, h1, h2, h3,
            List.countP_append, List.countP_cons, List.all_append,
            isSyncAttrs, isLogWarning, sleepIsFixed]

/-! ## Sample environments used by witnesses -/

/-- A setup environment where every step succeeds. -/
def sampleSetupEnvOk : SetupEnv :=
  { ldapError := false, wgInitErr := none, userManagerNil := false,
    initInterfaceErr := false, restoreErr := false, mailTplErr := false }

/-- A setup environment where only the WireGuard interface restoration
fails. -/
def sampleSetupEnvRestoreFail : SetupEnv :=
  { ldapError := false, wgInitErr := none, userManagerNil := false,
    initInterfaceErr := false, restoreErr := true, mailTplErr := false }

/-! ## Claim theorems: startup and run phases -/

/-- Claim C1: if restoring the VPN interface state fails (and the
earlier steps let Setup reach that call), `Setup` returns a non-nil
error and neither the mail template parsing, nor the HTTP server
construction, nor the route setup is performed. -/
theorem setup_aborts_on_restore_failure (env : SetupEnv)
    (hwg : env.wgInitErr = none) (hum : env.userManagerNil = false)
    (hii : env.initInterfaceErr = false) (hre : env.restoreErr = true) :
    (Setup env).1 = some ("unable to restore WireGuard state") ∧
    ((Setup env).1).isSome = true ∧
    Event.parseMailTemplate ∉ (Setup env).2 ∧
    Event.buildHttpServer ∉ (Setup env).2 ∧
    Event.setupRoutes ∉ (Setup env).2 := by
  rcases env with ⟨ld, wg, um, ii, re, mt⟩
  dsimp only at hwg hum hii hre
  subst hwg; subst hum; subst hii; subst hre
  cases ld <;> cases mt <;> decide

/-- Witness for C1: a concrete environment where only the restore step
fails. -/
theorem setup_aborts_on_restore_failure_witness :
    (Setup sampleSetupEnvRestoreFail).1 = some ("unable to restore WireGuard state") ∧
    ((Setup sampleSetupEnvRestoreFail).1).isSome = true ∧
    Event.parseMailTemplate ∉ (Setup sampleSetupEnvRestoreFail).2 ∧
    Event.buildHttpServer ∉ (Setup sampleSetupEnvRestoreFail).2 ∧
    Event.setupRoutes ∉ (Setup sampleSetupEnvRestoreFail).2 :=
  setup_aborts_on_restore_failure sampleSetupEnvRestoreFail rfl rfl rfl rfl

/-- Claim C5: on a boot whose `Setup` succeeds, the interface restore
step occurs exactly once in the whole boot trace, no background-task
start nor HTTP serving occurs before it, and HTTP serving does occur
(in `Run`, after it). -/
theorem restore_once_before_serving (env : SetupEnv) (sync : Bool)
    (h : (Setup env).1 = none) :
    (bootTrace env sync).countP isRestore = 1 ∧
    ((bootTrace env sync).takeWhile (fun e => !(isRestore e))).all
      (fun e => !(isServingStart e)) = true ∧
    Event.serveHTTP ∈ bootTrace env sync := by
  rcases env with ⟨ld, wg, um, ii, re, mt⟩
  cases wg with
  | some e => simp [Setup] at h
  | none =>
    cases um <;> cases ii <;> cases re <;> cases mt <;>
      first
        | (cases ld <;> cases sync <;> decide)
        | simp [Setup] at h

/-- Witness for C5: the all-success environment with attribute sync
configured. -/
theorem restore_once_before_serving_witness :
    (bootTrace sampleSetupEnvOk true).countP isRestore = 1 ∧
    ((bootTrace sampleSetupEnvOk true).takeWhile (fun e => !(isRestore e))).all
      (fun e => !(isServingStart e)) = true ∧
    Event.serveHTTP ∈ bootTrace sampleSetupEnvOk true :=
  restore_once_before_serving sampleSetupEnvOk true rfl

/-- Claim C4: a failed periodic cache refresh never terminates the
loop: over the first `n` iterations, whatever the failure oracle says,
the updater runs exactly `n` times, each failure is logged exactly
once, and every sleep is exactly the fixed refresh interval (no
backoff, no escalation). -/
theorem cacheRefresher_error_logged_loop_continues (errs : Nat → Bool) (n : Nat) :
    (cacheRefresherTrace errs n).countP isUpdateCache = n ∧
    (cacheRefresherTrace errs n).countP isLogWarning = countTrue errs n ∧
    (cacheRefresherTrace errs n).all sleepIsFixed = true :=
  cacheRefresherTrace_props errs n

/-- Claim C6 counterexample: with LDAP disabled, `Run` starts zero
background tasks, not two. -/
theorem run_two_tasks_counterexample :
    bgStartCount (Run true false) = 0 ∧ bgStartCount (Run true false) ≠ 2 := by
  decide

/-- Claim C6 (amended): only when LDAP is enabled and `SyncLdapStatus`
is configured does `Run` start exactly the two periodic background
tasks (cache refresher and attribute synchronizer); with LDAP disabled
it starts none, and without `SyncLdapStatus` only the cache refresher.
Each task loops indefinitely, sleeping exactly the fixed interval
between iterations. -/
theorem run_background_tasks_amended (errs1 errs2 : Nat → Bool) (n : Nat) :
    bgStartCount (Run false true) = 2 ∧
    Event.startCacheRefresher ∈ Run false true ∧
    Event.startAttrSync ∈ Run false true ∧
    bgStartCount (Run true true) = 0 ∧
    bgStartCount (Run true false) = 0 ∧
    bgStartCount (Run false false) = 1 ∧
    (cacheRefresherTrace errs1 n).countP isUpdateCache = n ∧
    (cacheRefresherTrace errs1 n).all sleepIsFixed = true ∧
    (attrSyncTrace errs2 n).countP isSyncAttrs = n ∧
    (attrSyncTrace errs2 n).all sleepIsFixed = true := by
  refine ⟨by decide, by decide, by decide, by decide, by decide, by decide,
    (cacheRefresherTrace_props errs1 n).1, (cacheRefresherTrace_props errs1 n).2.2,
    (attrSyncTrace_props errs2 n).1, (attrSyncTrace_props errs2 n).2.2⟩

end WgPortal
